import Mathlib

/-!
Shallow embedding of `src/postmate.js` (the Postmate parent/child
postMessage protocol): wire values, the `sanitize` gate, the envelope
builders, the parent/child API listeners, the handshake state machines,
and the model-merge performed at handshake time.  Stateful code is
embedded as explicit state-passing step functions; JavaScript objects
are embedded as finite maps over their own keys; absent / `undefined`
fields are `Option.none`.
-/

namespace Postmate

/-- A JavaScript value as it can appear in protocol fields: `undefined`,
`null`, booleans, numbers, strings, and the three object values that
property resolution through `Object.prototype` can produce — a fresh
empty object (from the inherited `constructor`), the `Object.prototype`
object itself (read through `__proto__`), and the receiver data-model
object (returned by the inherited `valueOf`). -/
inductive JSValue where
  | undefined
  | null
  | bool (b : Bool)
  | num (n : Int)
  | str (s : String)
  | emptyObject
  | objectPrototypeObj
  | modelObject
  deriving DecidableEq, Repr

/-- JavaScript truthiness of a `JSValue` (every object is truthy). -/
def truthy : JSValue → Bool
  | .undefined => false
  | .null => false
  | .bool b => b
  | .num n => n ≠ 0
  | .str s => s ≠ ""
  | .emptyObject => true
  | .objectPrototypeObj => true
  | .modelObject => true

/-- A value stored under a key of a child data model: a plain value, a
function (whose zero-argument invocation returns `ret`), or a promise
resolving to `v` (`resolveValue` flattens it via `Promise.resolve`). -/
inductive ModelValue where
  | plain (v : JSValue)
  | func (ret : JSValue)
  | deferredVal (v : JSValue)
  deriving DecidableEq, Repr

/-- The `value` field of a wire envelope: either a plain JS value (as in
`reply` envelopes) or the nested `\x7bname, data\x7d` object sent by `emit`. -/
inductive WireValue where
  | js (v : JSValue)
  | emitPair (name : String) (data : Option JSValue)
  deriving DecidableEq, Repr

/-- The fields an inbound `message.data` object may carry.  Every field is
optional: an adversarial or unrelated message need not carry any of them.
`postmate?` is the protocol marker key (also holding the message kind). -/
structure PayloadObj where
  postmate? : Option String := none
  type? : Option String := none
  childId? : Option Nat := none
  uid? : Option Nat := none
  property? : Option String := none
  data? : Option JSValue := none
  value? : Option WireValue := none
  model? : Option (List (String × ModelValue)) := none
  deriving DecidableEq, Repr

/-- An inbound `message.data`: either an object or a primitive value
(`typeof message.data !== 'object'`). -/
inductive Payload where
  | obj (o : PayloadObj)
  | prim (v : JSValue)
  deriving DecidableEq, Repr

/-- An inbound message event: its reported `origin`, its `data` payload
(`none` embeds a falsy/absent payload) and an opaque identifier for its
`source` window. -/
structure MessageEvent where
  origin : String
  data : Option Payload
  sourceId : Nat
  deriving DecidableEq, Repr

/-- The second argument of `sanitize`: either a concrete expected origin
string, or the value `false` meaning "skip the origin check". -/
inductive AllowedOrigin where
  | origin (s : String)
  | noCheck
  deriving DecidableEq, Repr

/-- `messageType`: the constant `typeTag` marking traffic of this protocol. -/
def messageType : String := "application/x-postmate-v1+json"

/-- The members every plain JavaScript object inherits from
`Object.prototype` (ES2023 including the Annex B legacy accessors):
eleven function-valued members and the `__proto__` accessor. -/
inductive ProtoMember where
  | constructorFn
  | hasOwnPropertyFn
  | isPrototypeOfFn
  | propertyIsEnumerableFn
  | toLocaleStringFn
  | toStringFn
  | valueOfFn
  | defineGetterFn
  | defineSetterFn
  | lookupGetterFn
  | lookupSetterFn
  | protoAccessor
  deriving DecidableEq, Repr

/-- The `Object.prototype` member a property name reaches when the
receiver has no own binding for it. -/
def protoMember? (k : String) : Option ProtoMember :=
  if k = "constructor" then some .constructorFn
  else if k = "hasOwnProperty" then some .hasOwnPropertyFn
  else if k = "isPrototypeOf" then some .isPrototypeOfFn
  else if k = "propertyIsEnumerable" then some .propertyIsEnumerableFn
  else if k = "toLocaleString" then some .toLocaleStringFn
  else if k = "toString" then some .toStringFn
  else if k = "valueOf" then some .valueOfFn
  else if k = "__defineGetter__" then some .defineGetterFn
  else if k = "__defineSetter__" then some .defineSetterFn
  else if k = "__lookupGetter__" then some .lookupGetterFn
  else if k = "__lookupSetter__" then some .lookupSetterFn
  else if k = "__proto__" then some .protoAccessor
  else none

/-- `typeof member === 'function'` for an inherited member: every
`Object.prototype` member is a function except the `__proto__` accessor,
which yields an object. -/
def ProtoMember.isFunction : ProtoMember → Bool
  | .protoAccessor => false
  | _ => true

/-- The six message kinds the `messageTypes` literal enumerates (the
protocol's recognized kinds). -/
def recognizedKind (k : String) : Bool :=
  k == "handshake" || k == "handshake-reply" || k == "call" ||
    k == "emit" || k == "reply" || k == "request"

/-- The `messageTypes` lookup: truthiness of `messageTypes[k]`.  The
literal's six own keys hold `1`; because the literal is a plain object,
the lookup falls through to `Object.prototype`, whose members are all
truthy values, so inherited names such as `toString` or `constructor`
are truthy as well.  Every other key reads `undefined`, which is falsy. -/
def messageTypes (k : String) : Bool :=
  recognizedKind k || (protoMember? k).isSome

/-- `e.data.postmate` — the marker/kind field of the payload (`none` embeds
`undefined`, as read off a missing key or a non-object payload). -/
def payloadKind (e : MessageEvent) : Option String :=
  match e.data with
  | some (.obj o) => o.postmate?
  | _ => none

/-- `e.data.type` — the typeTag field of the payload. -/
def payloadTypeTag (e : MessageEvent) : Option String :=
  match e.data with
  | some (.obj o) => o.type?
  | _ => none

/-- `e.data.childId` — the instance identifier carried by the payload. -/
def payloadChildId (e : MessageEvent) : Option Nat :=
  match e.data with
  | some (.obj o) => o.childId?
  | _ => none

/-- `e.data.uid` — the correlation identifier carried by the payload. -/
def payloadUid (e : MessageEvent) : Option Nat :=
  match e.data with
  | some (.obj o) => o.uid?
  | _ => none

/-- `e.data.property` — the property name carried by the payload. -/
def payloadProperty (e : MessageEvent) : Option String :=
  match e.data with
  | some (.obj o) => o.property?
  | _ => none

/-- `e.data.data` — the call payload carried by the message. -/
def payloadData (e : MessageEvent) : Option JSValue :=
  match e.data with
  | some (.obj o) => o.data?
  | _ => none

/-- `e.data.value` — the value field of the payload, `undefined` if absent. -/
def payloadValue (e : MessageEvent) : WireValue :=
  match e.data with
  | some (.obj o) => o.value?.getD (.js .undefined)
  | _ => .js .undefined

/-- `e.data.model` — the initial data model carried by a handshake. -/
def payloadModel (e : MessageEvent) : Option (List (String × ModelValue)) :=
  match e.data with
  | some (.obj o) => o.model?
  | _ => none

/-- Truthiness of `message.data` (`!message.data` rejects falsy payloads). -/
def dataTruthy : Option Payload → Bool
  | none => false
  | some (.prim v) => truthy v
  | some (.obj _) => true

/-- `typeof message.data === 'object' && !('postmate' in message.data)` —
the payload is an object lacking the protocol marker key. -/
def lacksMarker : Option Payload → Bool
  | some (.obj o) => o.postmate?.isNone
  | _ => false

/-- Truthiness of `messageTypes[message.data.postmate]`
(`messageTypes[undefined]` is `undefined`, hence falsy). -/
def kindFlag : Option String → Bool
  | some k => messageTypes k
  | none => false

/-- The first test of `sanitize`: the allowed origin is a string and the
message's reported origin differs from it. -/
def originMismatch : AllowedOrigin → String → Bool
  | .origin s, o => o != s
  | .noCheck, _ => false

/-- `sanitize(message, allowedOrigin)` — the authentication gate, mirroring
the source's sequence of early rejections. -/
def sanitize (message : MessageEvent) (allowedOrigin : AllowedOrigin) : Bool :=
  if originMismatch allowedOrigin message.origin then false
  else if !dataTruthy message.data then false
  else if lacksMarker message.data then false
  else if payloadTypeTag message ≠ some messageType then false
  else if !kindFlag (payloadKind message) then false
  else true

/-- An outbound wire envelope, with the optional fields the six builders in
the source may set. -/
structure Envelope where
  postmate : String
  type : String
  childId? : Option Nat := none
  uid? : Option Nat := none
  property? : Option String := none
  data? : Option JSValue := none
  value? : Option WireValue := none
  model? : Option (List (String × ModelValue)) := none
  deriving DecidableEq, Repr

/-- The `request` envelope posted by `ParentAPI.get` — fields `postmate`,
`type`, `property`, `uid` only. -/
def requestEnvelope (property : String) (uid : Nat) : Envelope :=
  { postmate := "request", type := messageType,
    property? := some property, uid? := some uid }

/-- The `call` envelope posted by `ParentAPI.call` — fields `postmate`,
`type`, `property`, `data` only. -/
def callEnvelope (property : String) (data : Option JSValue) : Envelope :=
  { postmate := "call", type := messageType,
    property? := some property, data? := data }

/-- The `emit` envelope posted by `ChildAPI.emit`, carrying the child's
instance identifier and the nested `\x7bname, data\x7d` value. -/
def emitEnvelope (childId : Nat) (name : String) (data : Option JSValue) : Envelope :=
  { postmate := "emit", type := messageType, childId? := some childId,
    value? := some (.emitPair name data) }

/-- The `reply` envelope posted by the child message listener, carrying the
original property name and correlation id, the child's instance identifier
and the resolved value. -/
def replyEnvelope (property? : Option String) (uid? : Option Nat)
    (childId : Nat) (value : JSValue) : Envelope :=
  { postmate := "reply", type := messageType, childId? := some childId,
    uid? := uid?, property? := property?, value? := some (.js value) }

/-- The `handshake` envelope posted by `sendHandshake`, carrying the
initiator's data model and the fresh instance identifier. -/
def handshakeEnvelope (model : List (String × ModelValue)) (childId : Nat) : Envelope :=
  { postmate := "handshake", type := messageType,
    childId? := some childId, model? := some model }

/-- The `handshake-reply` envelope posted by the child's `shake` listener,
echoing the instance identifier found on the inbound handshake. -/
def handshakeReplyEnvelope (childId? : Option Nat) : Envelope :=
  { postmate := "handshake-reply", type := messageType, childId? := childId? }

/-- The property key a (possibly `undefined`) property name reads:
JavaScript coerces `undefined` to the string key `"undefined"`. -/
def propKey : Option String → String
  | some p => p
  | none => "undefined"

/-- What reading `obj[p]` on a plain object yields: an own binding, a
member inherited from `Object.prototype`, or `undefined`. -/
inductive PropLookup where
  | ownProp (v : ModelValue)
  | inheritedProp (m : ProtoMember)
  | absent
  deriving DecidableEq, Repr

/-- JavaScript property access on the data model: an own binding shadows
the prototype; with no own binding the lookup reaches the
`Object.prototype` member of that name, if any. -/
def jsGet (model : String → Option ModelValue) (p : String) : PropLookup :=
  match model p with
  | some v => .ownProp v
  | none =>
    match protoMember? p with
    | some m => .inheritedProp m
    | none => .absent

/-- `property in this.model && typeof this.model[property] === 'function'`
under JavaScript semantics: an own function binding, or — with no own
binding — a function-valued member inherited from `Object.prototype`. -/
def callableInModel (model : String → Option ModelValue) (p : String) : Bool :=
  match jsGet model p with
  | .ownProp (.func _) => true
  | .ownProp _ => false
  | .inheritedProp m => m.isFunction
  | .absent => false

/-- The result of invoking an inherited `Object.prototype` member with no
arguments on the model object (`this = model`), as `resolveValue` does:
`toString` yields `"[object Object]"`; `toLocaleString` invokes
`this.toString` (an own binding shadows the inherited one; an own
non-function binding makes the call throw); `valueOf` returns the model
object; `constructor` (the `Object` function) returns a fresh empty
object; `hasOwnProperty`/`propertyIsEnumerable` coerce their missing
argument to the key `"undefined"`; `isPrototypeOf` of a non-object is
false; the Annex B `__lookupGetter__`/`__lookupSetter__` find no accessor
and yield `undefined`; `__defineGetter__`/`__defineSetter__` throw a
`TypeError` because their missing getter/setter argument is not callable.
The `__proto__` arm is never invoked (it is not a function); its value is
read directly by `resolveValue`. -/
def protoInvokeResult (model : String → Option ModelValue) :
    ProtoMember → Except Unit JSValue
  | .toStringFn => .ok (.str "[object Object]")
  | .toLocaleStringFn =>
    match model "toString" with
    | some (.func ret) => .ok ret
    | some _ => .error ()
    | none => .ok (.str "[object Object]")
  | .valueOfFn => .ok .modelObject
  | .constructorFn => .ok .emptyObject
  | .hasOwnPropertyFn => .ok (.bool (model "undefined").isSome)
  | .propertyIsEnumerableFn => .ok (.bool (model "undefined").isSome)
  | .isPrototypeOfFn => .ok (.bool false)
  | .lookupGetterFn => .ok .undefined
  | .lookupSetterFn => .ok .undefined
  | .defineGetterFn => .error ()
  | .defineSetterFn => .error ()
  | .protoAccessor => .ok .objectPrototypeObj

/-- `resolveValue(model, property)` with JavaScript property-access
semantics: an own function binding is invoked and its return value used;
an own plain or promise binding is used (flattened by
`Promise.resolve`); with no own binding, the access reaches
`Object.prototype` — an inherited function member is invoked on the
model (two of them throw), and `__proto__` reads the prototype object;
only a name absent from both the model and `Object.prototype` resolves
to `undefined`.  `.error` embeds a thrown `TypeError`. -/
def resolveValue (model : String → Option ModelValue) (property? : Option String) :
    Except Unit JSValue :=
  match jsGet model (propKey property?) with
  | .ownProp (.func ret) => .ok ret
  | .ownProp (.plain v) => .ok v
  | .ownProp (.deferredVal v) => .ok v
  | .inheritedProp .protoAccessor => .ok .objectPrototypeObj
  | .inheritedProp m => protoInvokeResult model m
  | .absent => .ok .undefined

/-! ## The child message listener (`ChildAPI`) -/

/-- The state of a `ChildAPI` instance: its data model (a finite map over
its own keys), the fixed parent origin and the instance identifier recorded
at handshake time. -/
structure ChildState where
  model : String → Option ModelValue
  parentOrigin : String
  childId : Nat

/-- What the child message listener does with one inbound message:
nothing; evaluate `this.model[property](data)` (the invocation's own
outcome — return value or exception — is not tracked, since no reply
depends on it); post a `reply` envelope to a target origin; or throw out
of the listener while resolving a property, sending nothing. -/
inductive ChildAction where
  | noAction
  | invoked (property : String) (data : Option JSValue)
  | replied (env : Envelope) (targetOrigin : String)
  | threw
  deriving DecidableEq, Repr

/-- The `ChildAPI` message listener: sanitize against the fixed parent
origin; on `kind=call` evaluate `this.model[property](data)` exactly when
the `in`-and-`typeof` guard holds (an own function binding, or an
inherited callable `Object.prototype` member), sending nothing; on any
other sanitized kind resolve the named property and post a `reply`
envelope back to the message's source at its reported origin — unless
the resolution throws, in which case nothing is sent. -/
def childListener (st : ChildState) (e : MessageEvent) : ChildAction :=
  if !sanitize e (.origin st.parentOrigin) then .noAction
  else if payloadKind e = some "call" then
    if callableInModel st.model (propKey (payloadProperty e)) then
      .invoked (propKey (payloadProperty e)) (payloadData e)
    else .noAction
  else
    match resolveValue st.model (payloadProperty e) with
    | .ok v =>
      .replied (replyEnvelope (payloadProperty e) (payloadUid e) st.childId v)
        e.origin
    | .error _ => .threw

/-! ## The parent-side API (`ParentAPI`) -/

/-- One one-shot `transact` listener registered by `ParentAPI.get`:
its correlation identifier, and whether it is still registered. -/
structure PendingGet where
  uid : Nat
  active : Bool
  deriving DecidableEq, Repr

/-- The guard of the persistent `ParentAPI` listener: the message passes
`sanitize` against the stored child origin, has `kind=emit` and carries
this pairing's instance identifier. -/
def emitListenerActs (childOrigin : AllowedOrigin) (childId : Nat) (e : MessageEvent) : Bool :=
  sanitize e childOrigin && payloadKind e == some "emit" && payloadChildId e == some childId

/-- The guard of a `transact` listener registered by `ParentAPI.get`:
matching correlation identifier, `kind=reply` and matching instance
identifier.  `sanitize` is not consulted here. -/
def transactAccepts (uid childId : Nat) (e : MessageEvent) : Bool :=
  payloadUid e == some uid && payloadKind e == some "reply" && payloadChildId e == some childId

/-- The observable state of a `ParentAPI` instance: the stored child origin
and instance identifier, the process-wide message-id counter, whether the
persistent emit listener is registered, the registered one-shot `transact`
listeners, whether the iframe is attached, and logs of the emit values
acted upon, the `get` promises resolved and the envelopes posted. -/
structure ParentState where
  childOrigin : AllowedOrigin
  childId : Nat
  msgCounter : Nat
  listenerActive : Bool
  pending : List PendingGet
  frameAttached : Bool
  emitReceived : List WireValue
  resolvedGets : List (Nat × WireValue)
  sentEnvelopes : List Envelope
  deriving DecidableEq, Repr

/-- `ParentAPI.get(property)`: draw a fresh correlation identifier from
`generateNewMessageId`, register a one-shot `transact` listener keyed by
it, and post a `request` envelope naming the property.  Returns the new
state together with the correlation identifier. -/
def parentGet (s : ParentState) (property : String) : ParentState × Nat :=
  let uid := s.msgCounter + 1
  ({ s with
      msgCounter := uid,
      pending := s.pending ++ [⟨uid, true⟩],
      sentEnvelopes := s.sentEnvelopes ++ [requestEnvelope property uid] },
    uid)

/-- `ParentAPI.call(property, data)`: fire-and-forget post of a `call`
envelope. -/
def parentCall (s : ParentState) (property : String) (data : Option JSValue) : ParentState :=
  { s with sentEnvelopes := s.sentEnvelopes ++ [callEnvelope property data] }

/-- `ParentAPI.destroy()`: remove the persistent emit listener and detach
the iframe from its container.  The one-shot `transact` listeners are left
registered. -/
def parentDestroy (s : ParentState) : ParentState :=
  { s with listenerActive := false, frameAttached := false }

/-- Delivery of one inbound message to the parent context: the persistent
emit listener (when registered) acts on sanitized emit messages of this
pairing, and every still-active `transact` listener whose guard matches
resolves its `get` promise with the message's `value` field and
deregisters itself. -/
def parentDeliver (s : ParentState) (e : MessageEvent) : ParentState :=
  let s1 :=
    if s.listenerActive && emitListenerActs s.childOrigin s.childId e then
      { s with emitReceived := s.emitReceived ++ [payloadValue e] }
    else s
  { s1 with
      pending := s1.pending.map fun p =>
        if p.active && transactAccepts p.uid s1.childId e then { p with active := false } else p,
      resolvedGets := s1.resolvedGets ++
        ((s1.pending.filter fun p => p.active && transactAccepts p.uid s1.childId e).map
          fun p => (p.uid, payloadValue e)) }

/-! ## The handshake state machine (`Postmate.sendHandshake`) -/

/-- `Postmate.maxHandshakeRequests`. -/
def maxHandshakeRequests : Nat := 5

/-- The fixed re-send interval of the handshake timer, in milliseconds. -/
def handshakeInterval : Nat := 500

/-- The per-pairing configuration fixed before the handshake loop starts:
the fresh instance identifier, the origin resolved from the target URL and
the initiator's data model. -/
structure HandshakeConfig where
  childId : Nat
  childOrigin : String
  model : List (String × ModelValue)

/-- The terminal outcomes of the initiator's handshake promise. -/
inductive HandshakeOutcome where
  | acknowledged (childOrigin : String)
  | rejected
  | timedOut
  deriving DecidableEq, Repr

/-- A promise settles at most once: a later resolution or rejection of an
already-settled promise is a no-op. -/
def settle (r : Option HandshakeOutcome) (o : HandshakeOutcome) : Option HandshakeOutcome :=
  match r with
  | none => some o
  | some x => some x

/-- The observable state of one `sendHandshake` run: the attempt counter,
the current time, whether the interval timer and the `reply` listener are
registered, the promise's outcome, and the timestamped handshake envelopes
posted so far. -/
structure HandshakeState where
  attempt : Nat
  now : Nat
  timerActive : Bool
  listenerActive : Bool
  outcome : Option HandshakeOutcome
  sent : List (Nat × Envelope)
  deriving DecidableEq, Repr

/-- `doSend`: bump the attempt counter; past the retry budget clear the
timer and reject with the timeout outcome, otherwise post the handshake
envelope. -/
def doSend (cfg : HandshakeConfig) (s : HandshakeState) : HandshakeState :=
  if s.attempt + 1 > maxHandshakeRequests then
    { s with attempt := s.attempt + 1, timerActive := false,
             outcome := settle s.outcome .timedOut }
  else
    { s with attempt := s.attempt + 1,
             sent := s.sent ++ [(s.now, handshakeEnvelope cfg.model cfg.childId)] }

/-- The guard of the initiator's `reply` listener: the message passes
`sanitize` against the resolved child origin and carries this pairing's
instance identifier. -/
def replyGuard (cfg : HandshakeConfig) (e : MessageEvent) : Bool :=
  sanitize e (.origin cfg.childOrigin) && payloadChildId e == some cfg.childId

/-- An event observable by the handshake loop: a timer tick (advancing time
by the fixed interval) or the delivery of an inbound message. -/
inductive PEvent where
  | tick
  | deliver (e : MessageEvent)

/-- One step of the handshake state machine.  A tick fires `doSend` while
the timer is armed.  A delivered message is handled by the `reply`
listener while it is registered: on a guarded `handshake-reply` the timer
is cleared, the listener removed and the promise resolved with the
message's reported origin; on any other guarded kind the promise is
rejected (listener and timer are left in place, as in the source). -/
def hsStep (cfg : HandshakeConfig) (s : HandshakeState) : PEvent → HandshakeState
  | .tick =>
    if s.timerActive then doSend cfg { s with now := s.now + handshakeInterval } else s
  | .deliver e =>
    if !s.listenerActive then s
    else if !replyGuard cfg e then s
    else if payloadKind e = some "handshake-reply" then
      { s with timerActive := false, listenerActive := false,
               outcome := settle s.outcome (.acknowledged e.origin) }
    else
      { s with outcome := settle s.outcome .rejected }

/-- Folding a sequence of events through the handshake machine. -/
def hsRun (cfg : HandshakeConfig) (s : HandshakeState) (evs : List PEvent) : HandshakeState :=
  evs.foldl (hsStep cfg) s

/-- The state right after the frame's `load` event: the `reply` listener is
registered, `doSend` has fired once at time 0, and the interval timer is
armed. -/
def loadedState (cfg : HandshakeConfig) : HandshakeState :=
  doSend cfg
    { attempt := 0, now := 0, timerActive := true, listenerActive := true,
      outcome := none, sent := [] }

/-! ## The handshake responder (`Postmate.Model`, listener `shake`) -/

/-- Shallow merge of initiator-supplied defaults into the child model:
`Object.keys(defaults).forEach(key => \x7b this.model[key] = defaults[key] \x7d)`. -/
def extendModel (model : String → Option ModelValue)
    (defaults : List (String × ModelValue)) : String → Option ModelValue :=
  defaults.foldl (fun m kv => fun k => if k = kv.1 then some kv.2 else m k) model

/-- The terminal outcomes of the responder's handshake promise. -/
inductive ShakeOutcome where
  | replied
  | failed
  deriving DecidableEq, Repr

/-- Settle-once for the responder's promise. -/
def settleShake (r : Option ShakeOutcome) (o : ShakeOutcome) : Option ShakeOutcome :=
  match r with
  | none => some o
  | some x => some x

/-- The observable state of one `Postmate.Model` run: the child's data
model, whether the `shake` listener is registered, the recorded instance
identifier and parent origin, the promise's outcome and the
`(source, envelope, targetOrigin)` replies posted. -/
structure ShakeState where
  model : String → Option ModelValue
  listenerActive : Bool
  childId? : Option Nat
  parentOrigin? : Option String
  outcome : Option ShakeOutcome
  sentReplies : List (Nat × Envelope × String)

/-- The guard of the `shake` listener: `e.data.postmate` is truthy.
Neither the typeTag nor the origin is examined. -/
def shakeActs (e : MessageEvent) : Bool :=
  match payloadKind e with
  | some k => k != ""
  | none => false

/-- The `shake` listener: ignore messages with a falsy marker; on
`kind=handshake` remove the listener, echo a `handshake-reply` to the
message's source at its reported origin, record the instance identifier
and parent origin, shallow-merge the initiator-supplied model (when
present) and resolve; on any other truthy marker reject. -/
def shakeStep (s : ShakeState) (e : MessageEvent) : ShakeState :=
  if !s.listenerActive then s
  else if !shakeActs e then s
  else if payloadKind e = some "handshake" then
    { s with
        listenerActive := false,
        sentReplies := s.sentReplies ++
          [(e.sourceId, handshakeReplyEnvelope (payloadChildId e), e.origin)],
        childId? := payloadChildId e,
        parentOrigin? := some e.origin,
        model := match payloadModel e with
          | some defaults => extendModel s.model defaults
          | none => s.model,
        outcome := settleShake s.outcome .replied }
  else
    { s with outcome := settleShake s.outcome .failed }

/-! ## Spec-level predicates and concrete test vectors -/

/-- The payload is an object carrying the protocol marker key. -/
def payloadHasMarker (e : MessageEvent) : Bool :=
  match e.data with
  | some (.obj o) => o.postmate?.isSome
  | _ => false

/-- The spec's origin condition: when a concrete expected origin is
supplied the reported origin equals it; when origin checking is disabled
there is no condition. -/
def originOk (a : AllowedOrigin) (o : String) : Prop :=
  match a with
  | .origin s => o = s
  | .noCheck => True

/-- A well-formed `handshake-reply` acknowledgment for instance 1 from
origin `https://child.example`. -/
def ackMessage : MessageEvent :=
  { origin := "https://child.example",
    data := some (.obj { postmate? := some "handshake-reply",
                         type? := some messageType, childId? := some 1 }),
    sourceId := 0 }

/-- A `handshake` message whose `type` field is not the protocol constant,
sent from an unrelated origin. -/
def badHandshake : MessageEvent :=
  { origin := "http://evil.example",
    data := some (.obj { postmate? := some "handshake",
                         type? := some "text/garbage", childId? := some 9,
                         model? := some [("greeting", .plain (.str "pwn"))] }),
    sourceId := 7 }

/-- A `reply` message with matching correlation and instance identifiers
but a wrong `type` field, sent from an unrelated origin. -/
def badReply : MessageEvent :=
  { origin := "http://evil.example",
    data := some (.obj { postmate? := some "reply",
                         type? := some "text/garbage", childId? := some 1,
                         uid? := some 1, value? := some (.js (.str "forged")) }),
    sourceId := 0 }

/-- A well-formed `reply` message for correlation id 1 and instance 1 from
origin `https://child.example`. -/
def goodReply : MessageEvent :=
  { origin := "https://child.example",
    data := some (.obj { postmate? := some "reply",
                         type? := some messageType, childId? := some 1,
                         uid? := some 1, value? := some (.js (.num 42)) }),
    sourceId := 0 }

/-- An initial responder state whose local model binds only `farewell`. -/
def shakeInit : ShakeState :=
  { model := fun k => if k = "farewell" then some (.plain (.str "bye")) else none,
    listenerActive := true, childId? := none, parentOrigin? := none,
    outcome := none, sentReplies := [] }

/-- A parent API state right after a successful handshake with instance 1
and child origin `https://child.example`. -/
def parentInit : ParentState :=
  { childOrigin := .origin "https://child.example", childId := 1,
    msgCounter := 0, listenerActive := true, pending := [],
    frameAttached := true, emitReceived := [], resolvedGets := [],
    sentEnvelopes := [] }

/-- A handshake configuration for instance 1 against
`https://child.example` with an empty initial model. -/
def hsConfig : HandshakeConfig :=
  { childId := 1, childOrigin := "https://child.example", model := [] }

/-- A well-formed `emit` message for instance 1 from
`https://child.example`. -/
def goodEmit : MessageEvent :=
  { origin := "https://child.example",
    data := some (.obj { postmate? := some "emit", type? := some messageType,
                         childId? := some 1,
                         value? := some (.emitPair "ready" none) }),
    sourceId := 0 }

/-- A well-formed `handshake` message carrying instance 1 and the model
`\x7bgreeting: 'hi'\x7d`, from `https://parent.example`. -/
def goodHandshakeMsg : MessageEvent :=
  { origin := "https://parent.example",
    data := some (.obj { postmate? := some "handshake",
                         type? := some messageType, childId? := some 1,
                         model? := some [("greeting", .plain (.str "hi"))] }),
    sourceId := 3 }

/-- A well-formed `request` for property `height` with correlation id 1
from `https://parent.example`. -/
def goodRequest : MessageEvent :=
  { origin := "https://parent.example",
    data := some (.obj { postmate? := some "request",
                         type? := some messageType, uid? := some 1,
                         property? := some "height" }),
    sourceId := 2 }

/-- A well-formed `call` of property `f` with a string payload from
`https://parent.example`. -/
def goodCall : MessageEvent :=
  { origin := "https://parent.example",
    data := some (.obj { postmate? := some "call",
                         type? := some messageType, property? := some "f",
                         data? := some (.str "payload") }),
    sourceId := 2 }

/-- A child API state with an empty model, parent origin
`https://parent.example` and instance 1. -/
def childEmpty : ChildState :=
  { model := fun _ => none, parentOrigin := "https://parent.example",
    childId := 1 }

/-- A child API state whose model binds `f` to a function, with parent
origin `https://parent.example` and instance 1. -/
def childWithF : ChildState :=
  { model := fun k => if k = "f" then some (.func .null) else none,
    parentOrigin := "https://parent.example", childId := 1 }

/-- A message whose kind is `toString` — not one of the six recognized
kinds, but a name inherited from `Object.prototype` — with the correct
`typeTag`. -/
def protoKindMsg : MessageEvent :=
  { origin := "https://child.example",
    data := some (.obj { postmate? := some "toString",
                         type? := some messageType }),
    sourceId := 0 }

/-- A well-formed `call` of the property `toString` — absent from the
model but inherited from `Object.prototype` — with a string payload,
from `https://parent.example`. -/
def protoCall : MessageEvent :=
  { origin := "https://parent.example",
    data := some (.obj { postmate? := some "call",
                         type? := some messageType,
                         property? := some "toString",
                         data? := some (.str "x") }),
    sourceId := 2 }

/-- A well-formed `request` for the property `toString` — absent from the
model but inherited from `Object.prototype` — with correlation id 2,
from `https://parent.example`. -/
def protoRequest : MessageEvent :=
  { origin := "https://parent.example",
    data := some (.obj { postmate? := some "request",
                         type? := some messageType, uid? := some 2,
                         property? := some "toString" }),
    sourceId := 2 }

/-- The handshake machine state after the frame load and `n` timer
ticks with no inbound message. -/
def hsAfterTicks (cfg : HandshakeConfig) (n : Nat) : HandshakeState :=
  hsRun cfg (loadedState cfg) (List.replicate n .tick)

/-- The handshake machine state after `k` timer ticks followed by the
delivery of message `e`. -/
def hsAfterAck (cfg : HandshakeConfig) (k : Nat) (e : MessageEvent) : HandshakeState :=
  hsStep cfg (hsAfterTicks cfg k) (.deliver e)

/-! ## Anatomy of a sanitized message -/

/-- A message accepted by `sanitize` passed the origin test, carries the
protocol marker, bears the exact `typeTag` constant and has a recognized
kind. -/
theorem sanitize_true_parts (e : MessageEvent) (a : AllowedOrigin)
    (h : sanitize e a = true) :
    originMismatch a e.origin = false ∧ payloadHasMarker e = true ∧
      payloadTypeTag e = some messageType ∧ kindFlag (payloadKind e) = true := by
  unfold sanitize at h
  split_ifs at h with h1 h2 h3 h4 h5
  refine ⟨by simpa using h1, ?_, by simpa using h4, by simpa using h5⟩
  rcases hd : e.data with _ | p
  · rw [hd] at h2; simp [dataTruthy] at h2
  · rcases p with o | v
    · rw [hd] at h3
      simp only [payloadHasMarker, hd]
      rcases ho : o.postmate? with _ | k
      · simp [lacksMarker, ho] at h3
      · simp
    · have h4' : payloadTypeTag e = some messageType := by simpa using h4
      simp [payloadTypeTag, hd] at h4'

/-- A passed origin test means the reported origin satisfies the spec's
origin condition. -/
theorem originMismatch_false_ok (a : AllowedOrigin) (o : String)
    (h : originMismatch a o = false) : originOk a o := by
  cases a with
  | origin s => simpa [originMismatch, originOk, bne] using h
  | noCheck => trivial

/-- C2: the code at the failing input.  The `messageTypes` table is a
plain object literal, so the lookup `messageTypes[kind]` at the last test
of `sanitize` is truthy for every `Object.prototype` member name: a
message whose kind is `toString` — not one of the six recognized kinds —
with the correct `typeTag` passes `sanitize`, both under a matching
origin and with origin checking disabled, contradicting the claimed
rejection of unrecognized kinds. -/
theorem c2_kind_code_bug :
    recognizedKind "toString" = false ∧
    payloadKind protoKindMsg = some "toString" ∧
    payloadTypeTag protoKindMsg = some messageType ∧
    sanitize protoKindMsg .noCheck = true ∧
    sanitize protoKindMsg (.origin "https://child.example") = true :=
  ⟨by decide, by decide, by decide, by decide, by decide⟩

/-- C3: with origin checking enabled, a marked message whose reported
origin differs from the expected one is rejected; with origin checking
disabled, the result of `sanitize` does not depend on the reported
origin. -/
theorem c3_origin_check :
    (∀ (e : MessageEvent) (s : String), payloadHasMarker e = true →
      e.origin ≠ s → sanitize e (.origin s) = false) ∧
    (∀ (o₁ o₂ : String) (d : Option Payload) (sid : Nat),
      sanitize ⟨o₁, d, sid⟩ .noCheck = sanitize ⟨o₂, d, sid⟩ .noCheck) := by
  constructor
  · intro e s _ hne
    have hm : originMismatch (.origin s) e.origin = true := by
      simp [originMismatch, bne, hne]
    simp [sanitize, hm]
  · intro o₁ o₂ d sid
    simp only [sanitize, originMismatch, payloadTypeTag, payloadKind, dataTruthy]

/-- Witness for C3: the forged reply carries the marker and comes from an
origin other than the expected one, so it is rejected under origin
checking; under disabled origin checking its acceptance is independent of
the origin. -/
theorem c3_witness :
    payloadHasMarker badReply = true ∧
      badReply.origin ≠ "https://child.example" ∧
      sanitize badReply (.origin "https://child.example") = false ∧
      sanitize ⟨"http://a.example", badReply.data, 0⟩ .noCheck =
        sanitize ⟨"http://b.example", badReply.data, 0⟩ .noCheck :=
  ⟨by decide, by decide,
    c3_origin_check.1 badReply "https://child.example" (by decide) (by decide),
    c3_origin_check.2 "http://a.example" "http://b.example" badReply.data 0⟩

/-- C1 counterexample: the responder's `shake` listener acts on (replies
to, and resolves for) a handshake whose `typeTag` is garbage and whose
origin is unrelated; and the `transact` listener of `get` accepts a reply
that fails `sanitize`.  Both contradict the claimed invariant. -/
theorem c1_counterexample :
    (shakeStep shakeInit badHandshake).sentReplies =
      [(7, handshakeReplyEnvelope (some 9), "http://evil.example")] ∧
    (shakeStep shakeInit badHandshake).outcome = some .replied ∧
    payloadTypeTag badHandshake ≠ some messageType ∧
    transactAccepts 1 1 badReply = true ∧
    sanitize badReply (.origin "https://child.example") = false :=
  ⟨by decide, by decide, by decide, by decide, by decide⟩

/-- C1 as amended: the parent emit listener, the handshake initiator's
reply listener and the child request/call listener act only on messages
bearing the exact `typeTag` and satisfying the origin condition, the
former two additionally requiring the pairing's instance identifier; the
`get` reply listener checks only kind, correlation identifier and
instance identifier; and the handshake responder checks only that the
marker field is truthy. -/
theorem c1_amended_theorem :
    (∀ (co : AllowedOrigin) (cid : Nat) (e : MessageEvent),
      emitListenerActs co cid e = true →
        payloadTypeTag e = some messageType ∧ originOk co e.origin ∧
          payloadChildId e = some cid) ∧
    (∀ (cfg : HandshakeConfig) (e : MessageEvent),
      replyGuard cfg e = true →
        payloadTypeTag e = some messageType ∧ e.origin = cfg.childOrigin ∧
          payloadChildId e = some cfg.childId) ∧
    (∀ (po : String) (e : MessageEvent),
      sanitize e (.origin po) = true →
        payloadTypeTag e = some messageType ∧ e.origin = po) ∧
    (∀ (uid cid : Nat) (e : MessageEvent),
      transactAccepts uid cid e = true →
        payloadKind e = some "reply" ∧ payloadUid e = some uid ∧
          payloadChildId e = some cid) ∧
    (∀ e : MessageEvent, shakeActs e = true →
      ∃ k, payloadKind e = some k ∧ k ≠ "") := by
  refine ⟨?_, ?_, ?_, ?_, ?_⟩
  · intro co cid e h
    simp only [emitListenerActs, Bool.and_eq_true, beq_iff_eq] at h
    obtain ⟨⟨hs, -⟩, hc⟩ := h
    obtain ⟨ho, -, ht, -⟩ := sanitize_true_parts e co hs
    exact ⟨ht, originMismatch_false_ok co e.origin ho, hc⟩
  · intro cfg e h
    simp only [replyGuard, Bool.and_eq_true, beq_iff_eq] at h
    obtain ⟨hs, hc⟩ := h
    obtain ⟨ho, -, ht, -⟩ := sanitize_true_parts e _ hs
    exact ⟨ht, originMismatch_false_ok _ e.origin ho, hc⟩
  · intro po e h
    obtain ⟨ho, -, ht, -⟩ := sanitize_true_parts e _ h
    exact ⟨ht, originMismatch_false_ok _ e.origin ho⟩
  · intro uid cid e h
    simp only [transactAccepts, Bool.and_eq_true, beq_iff_eq] at h
    exact ⟨h.1.2, h.1.1, h.2⟩
  · intro e h
    rcases hk : payloadKind e with _ | k
    · simp [shakeActs, hk] at h
    · refine ⟨k, rfl, ?_⟩
      simpa [shakeActs, hk] using h

/-- Witness for the amended C1: a well-formed emit message is acted upon
and indeed bears the exact `typeTag`, the expected origin and the
pairing's instance identifier. -/
theorem c1_witness :
    emitListenerActs (.origin "https://child.example") 1 goodEmit = true ∧
      (payloadTypeTag goodEmit = some messageType ∧
        originOk (.origin "https://child.example") goodEmit.origin ∧
        payloadChildId goodEmit = some 1) :=
  ⟨by decide, c1_amended_theorem.1 (.origin "https://child.example") 1 goodEmit (by decide)⟩

/-! ## The handshake-time model merge -/

/-- Unfolding `extendModel` over a first binding. -/
theorem extendModel_cons (m : String → Option ModelValue)
    (a : String × ModelValue) (t : List (String × ModelValue)) :
    extendModel m (a :: t) =
      extendModel (fun k => if k = a.1 then some a.2 else m k) t := rfl

/-- Keys not assigned by the defaults are untouched by the merge. -/
theorem extendModel_notMem (ds : List (String × ModelValue)) :
    ∀ (m : String → Option ModelValue) (k : String),
      k ∉ ds.map Prod.fst → extendModel m ds k = m k := by
  induction ds with
  | nil => intro m k _; rfl
  | cons a t ih =>
    intro m k h
    rw [List.map_cons, List.mem_cons] at h
    push_neg at h
    rw [extendModel_cons, ih _ k h.2]
    simp [h.1]

/-- When the defaults bind each key at most once, the merged model reads a
key from the defaults first and falls back to the local model. -/
theorem extendModel_lookup (ds : List (String × ModelValue)) :
    ∀ (m : String → Option ModelValue) (k : String),
      (ds.map Prod.fst).Nodup →
      extendModel m ds k = (ds.lookup k).or (m k) := by
  induction ds with
  | nil => intro m k _; rfl
  | cons a t ih =>
    intro m k h
    rw [List.map_cons, List.nodup_cons] at h
    obtain ⟨ha, ht⟩ := h
    rw [extendModel_cons]
    by_cases hk : k = a.1
    · subst hk
      rw [extendModel_notMem t _ a.1 ha]
      simp [List.lookup]
    · rw [ih _ k ht]
      have hbeq : (k == a.1) = false := by simp [hk]
      simp [List.lookup, hbeq, hk]

/-- C8: on a handshake carrying a defaults model with pairwise distinct
keys, the responder's merged model maps every key bound by the defaults
to the initiator-supplied value and every other key to its original local
value. -/
theorem c8_handshake_merge (s : ShakeState) (e : MessageEvent)
    (ds : List (String × ModelValue)) (k : String)
    (hl : s.listenerActive = true) (hk : payloadKind e = some "handshake")
    (hm : payloadModel e = some ds) (hnd : (ds.map Prod.fst).Nodup) :
    (shakeStep s e).model k = (ds.lookup k).or (s.model k) := by
  have hacts : shakeActs e = true := by simp [shakeActs, hk]
  simp only [shakeStep, hl, hacts, hk, hm, Bool.not_true, Bool.false_eq_true,
    if_false, if_true, reduceIte]
  exact extendModel_lookup ds s.model k hnd

/-- Witness for C8: after the handshake `\x7bgreeting: 'hi'\x7d`, the responder's
model maps `greeting` to `'hi'` while its own key `farewell` is
untouched. -/
theorem c8_witness :
    shakeInit.listenerActive = true ∧
    payloadKind goodHandshakeMsg = some "handshake" ∧
    (shakeStep shakeInit goodHandshakeMsg).model "greeting" =
      some (.plain (.str "hi")) ∧
    (shakeStep shakeInit goodHandshakeMsg).model "farewell" =
      some (.plain (.str "bye")) := by
  refine ⟨rfl, rfl, ?_, ?_⟩
  · rw [c8_handshake_merge shakeInit goodHandshakeMsg
      [("greeting", .plain (.str "hi"))] "greeting" rfl rfl rfl (by decide)]
    rfl
  · rw [c8_handshake_merge shakeInit goodHandshakeMsg
      [("greeting", .plain (.str "hi"))] "farewell" rfl rfl rfl (by decide)]
    rfl

/-! ## The parent-side API: get, call, destroy, delivery -/

/-- Delivery leaves each pending `get` marked inactive exactly when its
`transact` guard matched. -/
theorem parentDeliver_pending (s : ParentState) (e : MessageEvent) :
    (parentDeliver s e).pending = s.pending.map fun p =>
      if p.active && transactAccepts p.uid s.childId e then
        { p with active := false } else p := by
  by_cases hc : (s.listenerActive && emitListenerActs s.childOrigin s.childId e) = true
  · simp [parentDeliver, hc]
  · simp [parentDeliver, hc]

/-- Delivery appends one resolution per active pending `get` whose
`transact` guard matched. -/
theorem parentDeliver_resolvedGets (s : ParentState) (e : MessageEvent) :
    (parentDeliver s e).resolvedGets = s.resolvedGets ++
      ((s.pending.filter fun p => p.active && transactAccepts p.uid s.childId e).map
        fun p => (p.uid, payloadValue e)) := by
  by_cases hc : (s.listenerActive && emitListenerActs s.childOrigin s.childId e) = true
  · simp [parentDeliver, hc]
  · simp [parentDeliver, hc]

/-- Delivery records an emit value exactly when the persistent listener is
registered and its guard matches. -/
theorem parentDeliver_emitReceived (s : ParentState) (e : MessageEvent) :
    (parentDeliver s e).emitReceived =
      if s.listenerActive && emitListenerActs s.childOrigin s.childId e then
        s.emitReceived ++ [payloadValue e]
      else s.emitReceived := by
  by_cases hc : (s.listenerActive && emitListenerActs s.childOrigin s.childId e) = true
  · simp [parentDeliver, hc]
  · simp [parentDeliver, hc]

/-- C5 counterexample: a reply with matching correlation and instance
identifiers but a garbage `typeTag`, from an unrelated origin, fails
`sanitize` under every origin argument yet is accepted by the `transact`
listener and resolves the outstanding `get`. -/
theorem c5_counterexample :
    transactAccepts 1 1 badReply = true ∧
    sanitize badReply (.origin "https://child.example") = false ∧
    sanitize badReply .noCheck = false ∧
    (parentDeliver (parentGet parentInit "height").1 badReply).resolvedGets =
      [(1, .js (.str "forged"))] :=
  ⟨by decide, by decide, by decide, by decide⟩

/-- C5 as amended: `get` draws a fresh correlation identifier, registers a
one-shot listener keyed by it, and posts a `request` envelope naming the
property; the listener accepts exactly the messages with `kind=reply`,
matching correlation identifier and matching instance identifier (it does
not invoke `sanitize`); a matching reply resolves the promise with the
message's `value` field and deregisters the listener. -/
theorem c5_amended_theorem :
    (∀ (s : ParentState) (p : String),
      (parentGet s p).2 = s.msgCounter + 1 ∧
      (parentGet s p).1.msgCounter = s.msgCounter + 1 ∧
      (parentGet s p).1.sentEnvelopes =
        s.sentEnvelopes ++ [requestEnvelope p (s.msgCounter + 1)] ∧
      (requestEnvelope p (s.msgCounter + 1)).postmate = "request" ∧
      (requestEnvelope p (s.msgCounter + 1)).type = messageType ∧
      (requestEnvelope p (s.msgCounter + 1)).property? = some p ∧
      PendingGet.mk (s.msgCounter + 1) true ∈ (parentGet s p).1.pending) ∧
    (∀ (uid cid : Nat) (e : MessageEvent),
      transactAccepts uid cid e = true ↔
        (payloadUid e = some uid ∧ payloadKind e = some "reply" ∧
          payloadChildId e = some cid)) ∧
    (∀ (s : ParentState) (e : MessageEvent) (g : PendingGet),
      g ∈ s.pending → g.active = true →
      transactAccepts g.uid s.childId e = true →
        (g.uid, payloadValue e) ∈ (parentDeliver s e).resolvedGets ∧
        PendingGet.mk g.uid false ∈ (parentDeliver s e).pending) := by
  refine ⟨?_, ?_, ?_⟩
  · intro s p
    refine ⟨rfl, rfl, rfl, rfl, rfl, rfl, ?_⟩
    simp [parentGet]
  · intro uid cid e
    simp [transactAccepts, Bool.and_eq_true, beq_iff_eq, and_assoc]
  · intro s e g hg ha ht
    constructor
    · rw [parentDeliver_resolvedGets]
      refine List.mem_append_right _ ?_
      refine List.mem_map.mpr ⟨g, List.mem_filter.mpr ⟨hg, ?_⟩, rfl⟩
      simp [ha, ht]
    · rw [parentDeliver_pending]
      refine List.mem_map.mpr ⟨g, hg, ?_⟩
      simp [ha, ht]

/-- Witness for the amended C5: the `get` for `height` registers listener
1, and the matching well-formed reply resolves it with value 42 and
deregisters it. -/
theorem c5_witness :
    PendingGet.mk 1 true ∈ (parentGet parentInit "height").1.pending ∧
    transactAccepts 1 1 goodReply = true ∧
    (1, payloadValue goodReply) ∈
      (parentDeliver (parentGet parentInit "height").1 goodReply).resolvedGets ∧
    PendingGet.mk 1 false ∈
      (parentDeliver (parentGet parentInit "height").1 goodReply).pending := by
  have h := c5_amended_theorem.2.2 (parentGet parentInit "height").1 goodReply
    (PendingGet.mk 1 true) (by decide) rfl (by decide)
  exact ⟨by decide, by decide, h.1, h.2⟩

/-- C6 counterexample: the `request` envelope posted by `get` and the
`call` envelope posted by `call` carry no instance identifier. -/
theorem c6_counterexample :
    (requestEnvelope "height" 1).childId? = none ∧
    (callEnvelope "f" (some (.str "x"))).childId? = none :=
  ⟨rfl, rfl⟩

/-- C6 as amended: the `emit`, `reply`, `handshake` and `handshake-reply`
envelopes carry the instance identifier, but the `request` and `call`
envelopes posted by `get` and `call` do not. -/
theorem c6_amended_theorem :
    (∀ (p : String) (uid : Nat), (requestEnvelope p uid).childId? = none) ∧
    (∀ (p : String) (d : Option JSValue), (callEnvelope p d).childId? = none) ∧
    (∀ (cid : Nat) (n : String) (d : Option JSValue),
      (emitEnvelope cid n d).childId? = some cid) ∧
    (∀ (prop? : Option String) (uid? : Option Nat) (cid : Nat) (v : JSValue),
      (replyEnvelope prop? uid? cid v).childId? = some cid) ∧
    (∀ (mdl : List (String × ModelValue)) (cid : Nat),
      (handshakeEnvelope mdl cid).childId? = some cid) ∧
    (∀ cid? : Option Nat, (handshakeReplyEnvelope cid?).childId? = cid?) :=
  ⟨fun _ _ => rfl, fun _ _ => rfl, fun _ _ _ => rfl, fun _ _ _ _ => rfl,
    fun _ _ => rfl, fun _ => rfl⟩

/-- C7 counterexample: after `destroy()`, a well-formed reply addressed to
this pairing's instance identifier still resolves the `get` that was
outstanding at destruction time. -/
theorem c7_counterexample :
    payloadChildId goodReply = some 1 ∧
    (parentDeliver (parentDestroy (parentGet parentInit "height").1)
        goodReply).resolvedGets = [(1, .js (.num 42))] :=
  ⟨by decide, by decide⟩

/-- C7 as amended: `destroy()` removes the persistent emit listener and
detaches the frame, so no later message is acted upon by the emit
listener; but the one-shot `transact` listeners of outstanding `get`
calls survive destruction, and a later matching reply is still acted
upon. -/
theorem c7_amended_theorem (s : ParentState) (e : MessageEvent) :
    (parentDestroy s).listenerActive = false ∧
    (parentDestroy s).frameAttached = false ∧
    (parentDestroy s).pending = s.pending ∧
    (parentDeliver (parentDestroy s) e).emitReceived = s.emitReceived ∧
    (∀ g ∈ s.pending, g.active = true →
      transactAccepts g.uid s.childId e = true →
        (g.uid, payloadValue e) ∈ (parentDeliver (parentDestroy s) e).resolvedGets) := by
  refine ⟨rfl, rfl, rfl, ?_, ?_⟩
  · rw [parentDeliver_emitReceived]
    simp [parentDestroy]
  · intro g hg ha ht
    rw [parentDeliver_resolvedGets]
    refine List.mem_append_right _ ?_
    refine List.mem_map.mpr ⟨g, List.mem_filter.mpr ⟨hg, ?_⟩, rfl⟩
    simp [parentDestroy, ha, ht]

/-- Witness for the amended C7: after destroying the state holding the
outstanding `get` for `height`, the emit listener is gone and the frame
detached, yet the well-formed reply still resolves correlation id 1. -/
theorem c7_witness :
    (parentDestroy (parentGet parentInit "height").1).listenerActive = false ∧
    (parentDestroy (parentGet parentInit "height").1).frameAttached = false ∧
    (1, payloadValue goodReply) ∈
      (parentDeliver (parentDestroy (parentGet parentInit "height").1)
        goodReply).resolvedGets := by
  have h := c7_amended_theorem (parentGet parentInit "height").1 goodReply
  exact ⟨h.1, h.2.1, h.2.2.2.2 (PendingGet.mk 1 true) (by decide) rfl (by decide)⟩

/-! ## The child message listener: call and request handling -/

/-- C9 counterexample: a sanitized call of `toString` — a property with
no own binding in the (empty) model — is nevertheless dispatched:
JavaScript's `in` and the subsequent property access see the member
inherited from `Object.prototype`, so the code evaluates
`model['toString'](data)`, contradicting "exactly when f exists in the
model and is callable". -/
theorem c9_counterexample :
    sanitize protoCall (.origin "https://parent.example") = true ∧
    childEmpty.model "toString" = none ∧
    childListener childEmpty protoCall = .invoked "toString" (some (.str "x")) :=
  ⟨by decide, rfl, by decide⟩

/-- C9 as amended: `call('f', payload)` posts a `call` envelope naming `f`
with the payload; the child listener, on a sanitized `call`, evaluates
`this.model[f](payload)` exactly when the `in`-and-`typeof` guard holds —
that is, when `f` has a callable own binding in the model, or `f` has no
own binding but names a callable member inherited from
`Object.prototype`; and no `call` ever produces a reply envelope. -/
theorem c9_call_dispatch :
    (∀ (s : ParentState) (p : String) (d : Option JSValue),
      (parentCall s p d).sentEnvelopes = s.sentEnvelopes ++ [callEnvelope p d] ∧
      (callEnvelope p d).postmate = "call" ∧
      (callEnvelope p d).type = messageType ∧
      (callEnvelope p d).property? = some p ∧
      (callEnvelope p d).data? = d) ∧
    (∀ (st : ChildState) (e : MessageEvent) (p : String) (r : JSValue),
      sanitize e (.origin st.parentOrigin) = true →
      payloadKind e = some "call" → payloadProperty e = some p →
      st.model p = some (.func r) →
        childListener st e = .invoked p (payloadData e)) ∧
    (∀ (st : ChildState) (e : MessageEvent) (p : String) (m : ProtoMember),
      sanitize e (.origin st.parentOrigin) = true →
      payloadKind e = some "call" → payloadProperty e = some p →
      st.model p = none → protoMember? p = some m → m.isFunction = true →
        childListener st e = .invoked p (payloadData e)) ∧
    (∀ (st : ChildState) (e : MessageEvent) (p : String),
      sanitize e (.origin st.parentOrigin) = true →
      payloadKind e = some "call" → payloadProperty e = some p →
      callableInModel st.model p = false →
        childListener st e = .noAction) ∧
    (∀ (st : ChildState) (e : MessageEvent) (env : Envelope) (o : String),
      payloadKind e = some "call" → childListener st e ≠ .replied env o) := by
  refine ⟨?_, ?_, ?_, ?_, ?_⟩
  · intro s p d
    exact ⟨rfl, rfl, rfl, rfl, rfl⟩
  · intro st e p r hs hk hp hm
    simp [childListener, hs, hk, hp, propKey, callableInModel, jsGet, hm]
  · intro st e p m hs hk hp hm hpm hf
    simp [childListener, hs, hk, hp, propKey, callableInModel, jsGet, hm, hpm, hf]
  · intro st e p hs hk hp hcb
    simp [childListener, hs, hk, hp, propKey, hcb]
  · intro st e env o hk h
    unfold childListener at h
    rw [hk] at h
    by_cases hs : (!sanitize e (.origin st.parentOrigin)) = true
    · rw [if_pos hs] at h
      exact ChildAction.noConfusion h
    · rw [if_neg hs, if_pos rfl] at h
      by_cases hcb : callableInModel st.model (propKey (payloadProperty e)) = true
      · rw [if_pos hcb] at h
        exact ChildAction.noConfusion h
      · rw [if_neg hcb] at h
        exact ChildAction.noConfusion h

/-- Witness for the amended C9: a sanitized call of `f` against a model
binding `f` to a function dispatches `f` with the payload, and a
sanitized call of the inherited `toString` against the empty model
dispatches it too. -/
theorem c9_witness :
    sanitize goodCall (.origin childWithF.parentOrigin) = true ∧
    childWithF.model "f" = some (.func .null) ∧
    childListener childWithF goodCall = .invoked "f" (some (.str "payload")) ∧
    childListener childEmpty protoCall = .invoked "toString" (some (.str "x")) := by
  have h1 := c9_call_dispatch.2.1 childWithF goodCall "f" .null (by decide)
    (by decide) (by decide) (by decide)
  have h2 := c9_call_dispatch.2.2.1 childEmpty protoCall "toString" .toStringFn
    (by decide) (by decide) (by decide) rfl (by decide) rfl
  exact ⟨by decide, by decide, h1, h2⟩

/-- C10 counterexample: a sanitized request for `toString` — a property
with no own binding in the (empty) model — is not answered with
`undefined`: the property access in `resolveValue` finds the member
inherited from `Object.prototype`, invokes it, and the reply carries the
string `"[object Object]"`. -/
theorem c10_counterexample :
    sanitize protoRequest (.origin "https://parent.example") = true ∧
    childEmpty.model "toString" = none ∧
    childListener childEmpty protoRequest =
      .replied
        (replyEnvelope (some "toString") (some 2) 1 (.str "[object Object]"))
        "https://parent.example" :=
  ⟨by decide, rfl, by decide⟩

/-- C10 as amended: a sanitized `request` naming a property that has no
own binding in the child's model and is not an `Object.prototype` member
name is neither dropped nor an error: the child still posts a `reply`
envelope to the message's source origin, echoing the property name and
correlation id, carrying its instance identifier, and whose value field
is `undefined`.  (A name inherited from `Object.prototype` instead
resolves the inherited member — e.g. `toString` replies
`"[object Object]"` — and `__defineGetter__`/`__defineSetter__` throw,
so nothing is sent for them.) -/
theorem c10_absent_property_reply (st : ChildState) (e : MessageEvent) (p : String)
    (hs : sanitize e (.origin st.parentOrigin) = true)
    (hk : payloadKind e = some "request")
    (hp : payloadProperty e = some p)
    (hm : st.model p = none)
    (hpm : protoMember? p = none) :
    childListener st e =
      .replied (replyEnvelope (some p) (payloadUid e) st.childId .undefined) e.origin ∧
    (replyEnvelope (some p) (payloadUid e) st.childId .undefined).value? =
      some (.js .undefined) ∧
    (replyEnvelope (some p) (payloadUid e) st.childId .undefined).uid? = payloadUid e ∧
    (replyEnvelope (some p) (payloadUid e) st.childId .undefined).childId? =
      some st.childId := by
  refine ⟨?_, rfl, rfl, rfl⟩
  simp [childListener, hs, hk, hp, resolveValue, propKey, jsGet, hm, hpm]

/-- Witness for the amended C10: the request for `height` — no own
binding, not an `Object.prototype` member — against an empty model is
answered with a `reply` whose value is `undefined`, carrying correlation
id 1 and instance id 1. -/
theorem c10_witness :
    sanitize goodRequest (.origin childEmpty.parentOrigin) = true ∧
    childEmpty.model "height" = none ∧
    protoMember? "height" = none ∧
    childListener childEmpty goodRequest =
      .replied (replyEnvelope (some "height") (some 1) 1 .undefined)
        "https://parent.example" := by
  have h := c10_absent_property_reply childEmpty goodRequest "height" (by decide)
    (by decide) (by decide) rfl (by decide)
  exact ⟨by decide, rfl, by decide, h.1⟩

/-! ## The handshake retry loop -/

/-- Running a sequence of events is folding the step function. -/
theorem hsRun_append (cfg : HandshakeConfig) (s : HandshakeState)
    (l₁ l₂ : List PEvent) :
    hsRun cfg s (l₁ ++ l₂) = hsRun cfg (hsRun cfg s l₁) l₂ := by
  simp [hsRun, List.foldl_append]

/-- A tick does nothing once the interval timer is cleared. -/
theorem hsStep_tick_timerOff (cfg : HandshakeConfig) (s : HandshakeState)
    (h : s.timerActive = false) : hsStep cfg s .tick = s := by
  simp [hsStep, h]

/-- Ticks do nothing once the interval timer is cleared. -/
theorem hsRun_ticks_timerOff (cfg : HandshakeConfig) (s : HandshakeState)
    (h : s.timerActive = false) (m : Nat) :
    hsRun cfg s (List.replicate m .tick) = s := by
  induction m with
  | zero => rfl
  | succ m ih =>
    rw [List.replicate_succ]
    show hsRun cfg (hsStep cfg s .tick) (List.replicate m .tick) = s
    rw [hsStep_tick_timerOff cfg s h]
    exact ih

/-- With timer cleared and listener removed, the machine is inert under
every event. -/
theorem hsStep_inert (cfg : HandshakeConfig) (s : HandshakeState)
    (h1 : s.timerActive = false) (h2 : s.listenerActive = false)
    (ev : PEvent) : hsStep cfg s ev = s := by
  cases ev with
  | tick => exact hsStep_tick_timerOff cfg s h1
  | deliver e => simp [hsStep, h2]

/-- With timer cleared and listener removed, the machine is inert under
every event sequence. -/
theorem hsRun_inert (cfg : HandshakeConfig) (s : HandshakeState)
    (h1 : s.timerActive = false) (h2 : s.listenerActive = false)
    (evs : List PEvent) : hsRun cfg s evs = s := by
  induction evs with
  | nil => rfl
  | cons ev t ih =>
    show hsRun cfg (hsStep cfg s ev) t = s
    rw [hsStep_inert cfg s h1 h2 ev]
    exact ih

/-- While the listener is registered, a guarded `handshake-reply` clears
the timer, removes the listener and resolves the promise with the
message's reported origin. -/
theorem hsStep_ack (cfg : HandshakeConfig) (s : HandshakeState) (e : MessageEvent)
    (hl : s.listenerActive = true) (hg : replyGuard cfg e = true)
    (hr : payloadKind e = some "handshake-reply") :
    hsStep cfg s (.deliver e) =
      { s with timerActive := false, listenerActive := false,
               outcome := settle s.outcome (.acknowledged e.origin) } := by
  simp [hsStep, hl, hg, hr]

/-- On a live, still-pending state, a guarded acknowledgment settles the
promise successfully, clears the timer, posts nothing further, and leaves
the machine inert for the rest of time. -/
theorem hsStep_ack_bundle (cfg : HandshakeConfig) (s : HandshakeState)
    (e : MessageEvent) (hl : s.listenerActive = true) (ho : s.outcome = none)
    (hg : replyGuard cfg e = true) (hr : payloadKind e = some "handshake-reply") :
    (hsStep cfg s (.deliver e)).outcome = some (.acknowledged e.origin) ∧
    (hsStep cfg s (.deliver e)).timerActive = false ∧
    (hsStep cfg s (.deliver e)).sent = s.sent ∧
    ∀ evs, hsRun cfg (hsStep cfg s (.deliver e)) evs = hsStep cfg s (.deliver e) := by
  rw [hsStep_ack cfg s e hl hg hr]
  refine ⟨by simp [settle, ho], rfl, rfl, ?_⟩
  intro evs
  exact hsRun_inert cfg _ rfl rfl evs

/-- C4: against a responder that never replies, the initiator posts its
handshake envelope exactly `maxHandshakeRequests` (5) times, at times 0,
500, 1000, 1500, 2000, and then (from the fifth interval tick on) the
promise is rejected with the timeout outcome; if a guarded acknowledgment
arrives after `k + 1 ≤ maxHandshakeRequests` sends, the promise — still
pending at that point — resolves successfully, the timer is cleared, and
no further envelope is ever sent nor the outcome ever changed. -/
theorem c4_handshake_retry (cfg : HandshakeConfig) (n k : Nat) (e : MessageEvent)
    (hn : maxHandshakeRequests ≤ n) (hk : k + 1 ≤ maxHandshakeRequests)
    (hs : sanitize e (.origin cfg.childOrigin) = true)
    (hc : payloadChildId e = some cfg.childId)
    (hr : payloadKind e = some "handshake-reply") :
    ((hsAfterTicks cfg n).sent =
        [(0, handshakeEnvelope cfg.model cfg.childId),
         (500, handshakeEnvelope cfg.model cfg.childId),
         (1000, handshakeEnvelope cfg.model cfg.childId),
         (1500, handshakeEnvelope cfg.model cfg.childId),
         (2000, handshakeEnvelope cfg.model cfg.childId)] ∧
      (hsAfterTicks cfg n).sent.length = maxHandshakeRequests ∧
      (hsAfterTicks cfg n).outcome = some .timedOut) ∧
    ((hsAfterTicks cfg k).outcome = none ∧
      (hsAfterTicks cfg k).sent.length = k + 1 ∧
      (hsAfterAck cfg k e).outcome = some (.acknowledged e.origin) ∧
      (hsAfterAck cfg k e).timerActive = false ∧
      (hsAfterAck cfg k e).sent.length = k + 1 ∧
      ∀ evs, hsRun cfg (hsAfterAck cfg k e) evs = hsAfterAck cfg k e) := by
  constructor
  · obtain ⟨m, rfl⟩ := Nat.exists_eq_add_of_le hn
    have hsplit : hsAfterTicks cfg (maxHandshakeRequests + m) =
        hsRun cfg (hsRun cfg (loadedState cfg) (List.replicate 5 PEvent.tick))
          (List.replicate m PEvent.tick) := by
      unfold hsAfterTicks
      rw [show maxHandshakeRequests + m = 5 + m from rfl, List.replicate_add,
        hsRun_append]
    rw [hsplit, hsRun_ticks_timerOff cfg _ rfl m]
    exact ⟨rfl, rfl, rfl⟩
  · have hguard : replyGuard cfg e = true := by
      simp [replyGuard, hs, hc]
    have hk4 : k ≤ 4 := by
      have hk5 : k + 1 ≤ 5 := hk
      omega
    have hfacts : (hsAfterTicks cfg k).listenerActive = true ∧
        (hsAfterTicks cfg k).outcome = none ∧
        (hsAfterTicks cfg k).sent.length = k + 1 := by
      interval_cases k <;> exact ⟨rfl, rfl, rfl⟩
    obtain ⟨hl, ho, hlen⟩ := hfacts
    obtain ⟨o1, o2, o3, o4⟩ :=
      hsStep_ack_bundle cfg (hsAfterTicks cfg k) e hl ho hguard hr
    have o3' : (hsAfterAck cfg k e).sent = (hsAfterTicks cfg k).sent := o3
    refine ⟨ho, hlen, o1, o2, ?_, o4⟩
    rw [o3']
    exact hlen

/-- Witness for C4: with the concrete configuration, five unanswered ticks
time out after exactly five sends, while a valid acknowledgment arriving
right after the first send resolves the handshake. -/
theorem c4_witness :
    sanitize ackMessage (.origin hsConfig.childOrigin) = true ∧
    (hsAfterTicks hsConfig 5).outcome = some .timedOut ∧
    (hsAfterTicks hsConfig 5).sent.length = maxHandshakeRequests ∧
    (hsAfterAck hsConfig 0 ackMessage).outcome =
      some (.acknowledged ackMessage.origin) := by
  have h := c4_handshake_retry hsConfig 5 0 ackMessage (by decide) (by decide)
    (by decide) (by decide) (by decide)
  exact ⟨by decide, h.1.2.2, h.1.2.1, h.2.2.2.1⟩

end Postmate
